import Mathlib

/-
Shallow embedding of the LLM-Callcenter-Agent core (src/app) in Lean 4.

Conventions of the embedding:
* wall-clock instants (`datetime`) are integers (`Time`); every place the
  Python code calls `datetime.now()` becomes an explicit `now : Time`
  parameter of the embedded operation;
* Python `dict`s are association lists with unique keys; `d[k] = v` is
  `assign`, `del d[k]` is `eraseKey` (a dict never holds a key twice, so
  removing every binding of the key is the same as removing the one binding);
* `float` quantities (confidences, costs, temperatures) are rationals `ℚ`,
  the exact-arithmetic reading of the formulas in the source;
* raising an exception is returning `.error` in `Except`;
* `getattr(settings, name, default)` on an attribute that the `Settings`
  class of `app/config.py` may or may not declare is modelled by an
  `Option` field of the embedded `Settings`: `none` means the attribute
  does not exist and `getattr` yields its default.
-/

set_option autoImplicit false

namespace CallCenter

abbrev Time := Int

/-- Python list slice `l[-n:]`: the last `n` elements, and the whole list
when `n = 0` (Python `l[-0:]` is `l[0:]`). -/
def pySliceLast {α : Type} (n : Nat) (l : List α) : List α :=
  if n = 0 then l else l.drop (l.length - n)

/-- Dict read `d.get(key)`: the value bound to the key, if any. -/
def dictGet {α β : Type} [DecidableEq α] (l : List (α × β)) (key : α) :
    Option β :=
  match l with
  | [] => none
  | kv :: rest => if kv.1 = key then some kv.2 else dictGet rest key

/-- Replace the value bound to `key` by its image under `g`, in place. -/
def mapValueAt {α β : Type} [DecidableEq α] (l : List (α × β)) (key : α)
    (g : β → β) : List (α × β) :=
  l.map (fun kv => if kv.1 = key then (key, g kv.2) else kv)

/-- Dict assignment `d[key] = value`: overwrite in place if the key is
present, otherwise append (insertion order preserved, as in Python). -/
def assign {α β : Type} [DecidableEq α] (l : List (α × β)) (key : α)
    (value : β) : List (α × β) :=
  if (dictGet l key).isSome then mapValueAt l key (fun _ => value)
  else l ++ [(key, value)]

/-- Dict deletion `del d[key]` (keys are unique, so filtering out every
binding of the key removes exactly the one binding). -/
def eraseKey {α β : Type} [DecidableEq α] (l : List (α × β)) (key : α) :
    List (α × β) :=
  l.filter (fun kv => decide (kv.1 ≠ key))

/-- `defaultdict` mutation `f(d[key])` writing back into `d[key]`: the default
`d0` is materialised on first access to an absent key. -/
def updateD {α β : Type} [DecidableEq α] (l : List (α × β)) (key : α) (d0 : β)
    (f : β → β) : List (α × β) :=
  if (dictGet l key).isSome then mapValueAt l key f
  else l ++ [(key, f d0)]

/- ----------------------------------------------------------------
   app/models/enums.py
   ---------------------------------------------------------------- -/

/-- `RequestType` of `app/models/enums.py`. -/
inductive RequestType
  | techSupport
  | sales
  | complaint
  | general
deriving DecidableEq

/-- The `.value` string of a `RequestType` member. -/
def RequestType.toValue : RequestType → String
  | .techSupport => "tech_support"
  | .sales => "sales"
  | .complaint => "complaint"
  | .general => "general"

/-- The `RequestType(s)` enum constructor: `some` member on a known value
string, `none` models the `ValueError` raised on an unknown one. -/
def RequestType.ofString : String → Option RequestType
  | "tech_support" => some .techSupport
  | "sales" => some .sales
  | "complaint" => some .complaint
  | "general" => some .general
  | _ => none

/-- `DialogueStatus` of `app/models/enums.py`. -/
inductive DialogueStatus
  | active
  | completed
  | escalated
  | timeout
deriving DecidableEq

/-- Terminal statuses of a session, per the data model: `Completed`,
`Escalated`, `TimedOut`. -/
def DialogueStatus.isTerminal : DialogueStatus → Bool
  | .active => false
  | .completed => true
  | .escalated => true
  | .timeout => true

/-- `MessageRole` of `app/models/enums.py`. -/
inductive MessageRole
  | user
  | assistant
  | system
deriving DecidableEq

/-- The `.value` string of a `MessageRole` member. -/
def MessageRole.toValue : MessageRole → String
  | .user => "user"
  | .assistant => "assistant"
  | .system => "system"

/-- `Priority` of `app/models/enums.py`. -/
inductive Priority
  | low
  | medium
  | high
  | urgent
deriving DecidableEq

/-- The `.value` string of a `Priority` member. -/
def Priority.toValue : Priority → String
  | .low => "low"
  | .medium => "medium"
  | .high => "high"
  | .urgent => "urgent"

/- ----------------------------------------------------------------
   app/models/dialogue.py
   ---------------------------------------------------------------- -/

/-- `Message` of `app/models/dialogue.py` (the random `id` field plays no
role in any embedded operation and is omitted). -/
structure Message where
  role : MessageRole
  content : String
  timestamp : Time := 0
  metadata : List (String × String) := []
deriving DecidableEq

/-- `DialogueContext` of `app/models/dialogue.py`. -/
structure DialogueContext where
  customer_id : Option String := none
  customer_name : Option String := none
  request_type : Option RequestType := none
  priority : Priority := .medium
  session_data : List (String × String) := []
  classification_confidence : ℚ := 0
  response_count : Nat := 0
  satisfaction_score : Option ℚ := none
  escalation_reason : Option String := none
deriving DecidableEq

/-- `DialogueSession` of `app/models/dialogue.py` (the `session_id` UUID is
modelled as a natural number). -/
structure DialogueSession where
  session_id : Nat := 0
  status : DialogueStatus := .active
  messages : List Message := []
  context : DialogueContext := {}
  created_at : Time := 0
  updated_at : Time := 0
  expires_at : Option Time := none
deriving DecidableEq

/-- `DialogueSession.add_message`: append the message, stamp `updated_at`,
and bump `context.response_count` when the role is `ASSISTANT`. -/
def DialogueSession.add_message (s : DialogueSession) (role : MessageRole)
    (content : String) (metadata : List (String × String)) (now : Time) :
    DialogueSession :=
  let message : Message :=
    { role := role, content := content, timestamp := now, metadata := metadata }
  { s with
    messages := s.messages ++ [message]
    updated_at := now
    context :=
      if role = .assistant then
        { s.context with response_count := s.context.response_count + 1 }
      else s.context }

/-- `DialogueSession.get_recent_messages`: `self.messages[-limit:]`. -/
def DialogueSession.get_recent_messages (s : DialogueSession) (limit : Nat) :
    List Message :=
  pySliceLast limit s.messages

/-- `DialogueSession.is_expired`: `datetime.now() > self.expires_at` when an
expiry is set, else `False`. -/
def DialogueSession.is_expired (s : DialogueSession) (now : Time) : Bool :=
  match s.expires_at with
  | none => false
  | some t => decide (t < now)

/- ----------------------------------------------------------------
   app/config.py
   ---------------------------------------------------------------- -/

/-- The configuration the embedded core reads.  `openai_model` is a declared
field of `app.config.Settings` (default `"gpt-4-1106-preview"`).  The other
entries are attributes the core probes with `getattr(settings, name, default)`;
the `Settings` class of `app/config.py` declares none of them, which is the
`none` value here (so `getattr` always yields its default on the shipped
configuration `appSettings`). -/
structure Settings where
  openai_model : String := "gpt-4-1106-preview"
  cost_optimization : Option Bool := none
  openai_model_fast : Option String := none
  max_context_messages : Option Nat := none
deriving DecidableEq

/-- `app.config.Settings()` as declared in `app/config.py`: only
`openai_model` exists; every probed optional attribute is absent. -/
def appSettings : Settings := {}

/- ----------------------------------------------------------------
   app/core/optimizer.py  (ResponseOptimizer)
   ---------------------------------------------------------------- -/

/-- A role/content pair as sent to the provider
(`dict[str, str]` with keys `"role"` and `"content"`). -/
structure ChatMessage where
  role : String
  content : String
deriving DecidableEq

/-- `ResponseOptimizer.model_costs`: per-1K-token input/output rates. -/
def model_costs : List (String × (ℚ × ℚ)) :=
  [("gpt-4-1106-preview", (1/100, 3/100)),
   ("gpt-3.5-turbo-1106", (1/1000, 2/1000))]

/-- The data serialized and digested by `ResponseOptimizer.get_cache_key`:
`{"messages": messages[-3:], "model": model, "temperature": temperature}`.
`json.dumps(..., sort_keys=True)` is injective on this data and the MD5
digest of the serialized bytes is modelled as an injective coding of it
(hash collisions are outside the model), so a cache key is identified with
the data it digests. -/
structure CacheData where
  messages : List ChatMessage
  model : String
  temperature : ℚ
deriving DecidableEq

/-- `ResponseOptimizer.get_cache_key`. -/
def get_cache_key (messages : List ChatMessage) (model : String)
    (temperature : ℚ) : CacheData :=
  { messages := pySliceLast 3 messages
    model := model
    temperature := temperature }

/-- `ResponseOptimizer.select_optimal_model`. -/
def select_optimal_model (st : Settings) (session : DialogueSession) : String :=
  if !(st.cost_optimization.getD false) then st.openai_model
  else if session.context.request_type = some .general then
    st.openai_model_fast.getD st.openai_model
  else if session.context.priority.toValue ∈ ["high"] ∨
      session.messages.length > 10 then
    st.openai_model
  else
    st.openai_model_fast.getD st.openai_model

/-- The truncation applied inside `ResponseOptimizer.compress_context`:
`msg.content[:500] + "..." if len(msg.content) > 500 else msg.content`. -/
def truncate500 (content : String) : String :=
  if content.length > 500 then content.take 500 ++ "..." else content

/-- The first loop of `ResponseOptimizer.compress_context`: scan for the
first system message, emit it and stop (`break`). -/
def firstSystem : List Message → List ChatMessage
  | [] => []
  | m :: rest =>
      if m.role.toValue = "system" then [⟨m.role.toValue, m.content⟩]
      else firstSystem rest

/-- `ResponseOptimizer.compress_context`. -/
def compress_context (st : Settings) (messages : List Message) :
    List ChatMessage :=
  let compressed := firstSystem messages
  let max_context_messages := st.max_context_messages.getD 10
  let recent_messages := pySliceLast max_context_messages messages
  compressed ++ recent_messages.filterMap (fun m =>
    if m.role.toValue ≠ "system" then
      some ⟨m.role.toValue, truncate500 m.content⟩
    else none)

/-- Python `round(x, 6)` in exact arithmetic.  Every cost produced by the
rate tables of this codebase is an integer multiple of `10⁻⁶`, so no
tie-breaking behavior of `round` is exercised; round-half-up is used. -/
def round6 (q : ℚ) : ℚ :=
  (round (q * 1000000) : ℤ) / 1000000

/-- `ResponseOptimizer.estimate_cost`.  `none` models the `KeyError` raised
when the fallback model is itself absent from the rate table. -/
def estimate_cost (st : Settings) (prompt_tokens completion_tokens : Nat)
    (model : String) : Option ℚ :=
  let model2 :=
    if (dictGet model_costs model).isSome then model
    else st.openai_model_fast.getD st.openai_model
  (dictGet model_costs model2).map (fun costs =>
    round6 ((prompt_tokens : ℚ) / 1000 * costs.1 +
      (completion_tokens : ℚ) / 1000 * costs.2))

/- ----------------------------------------------------------------
   app/core/prompts.py  (PromptTemplate)
   ---------------------------------------------------------------- -/

/-- `PromptTemplate.SYSTEM_PROMPTS`: one fixed instruction text per intent
(texts abridged to their identifying first sentence; no embedded operation
or claim inspects the prompt wording, only which template is chosen). -/
def SYSTEM_PROMPTS : RequestType → String
  | .techSupport => "You are a helpful technical support agent for a call center."
  | .sales => "You are a knowledgeable sales representative for a call center."
  | .complaint => "You are an empathetic customer service agent handling complaints."
  | .general => "You are a friendly customer service agent for a call center."

/-- `PromptTemplate.get_system_prompt`:
`SYSTEM_PROMPTS.get(request_type, SYSTEM_PROMPTS[RequestType.GENERAL])` —
the caller passes the session's possibly-`None` request type, and an absent
key falls back to the `GENERAL` template. -/
def get_system_prompt (request_type : Option RequestType) : String :=
  match request_type with
  | some rt => SYSTEM_PROMPTS rt
  | none => SYSTEM_PROMPTS .general

/-- `PromptTemplate.build_context_prompt`: renders the customer name and the
truthy session-data entries, or the empty string when there is nothing. -/
def build_context_prompt (customer_name : Option String)
    (context_data : List (String × String)) : String :=
  let context_parts :=
    (match customer_name with
     | some n => if n ≠ "" then ["Customer name: " ++ n] else []
     | none => []) ++
    context_data.filterMap (fun kv =>
      if kv.2 ≠ "" then some (kv.1 ++ ": " ++ kv.2) else none)
  if context_parts ≠ [] then
    "\nContext: " ++ String.intercalate ", " context_parts ++ "\n"
  else ""

/- ----------------------------------------------------------------
   app/services/dialogue_service.py
   ---------------------------------------------------------------- -/

/-- The message list `DialogueService._generate_contextual_response` sends to
`llm_client.generate_response`: one system message (intent prompt plus
context prompt) followed by `session.get_recent_messages(limit=10)` with
role value and content copied verbatim. -/
def build_provider_messages (session : DialogueSession) : List ChatMessage :=
  let system_prompt := get_system_prompt session.context.request_type
  let context_prompt := build_context_prompt session.context.customer_name
    session.context.session_data
  ⟨"system", system_prompt ++ context_prompt⟩ ::
    (session.get_recent_messages 10).map (fun m => ⟨m.role.toValue, m.content⟩)

/- ----------------------------------------------------------------
   app/storage/memory.py  (MemoryStorage)
   ---------------------------------------------------------------- -/

/-- The in-memory session map `MemoryStorage.sessions`. -/
abbrev Store := List (Nat × DialogueSession)

/-- `MemoryStorage.delete_session`: `del` the key if present, reporting
whether anything was removed. -/
def MemoryStorage.delete_session (st : Store) (session_id : Nat) :
    Bool × Store :=
  if (dictGet st session_id).isSome then (true, eraseKey st session_id)
  else (false, st)

/-- `MemoryStorage.store_session`: `self.sessions[session_id] = session`. -/
def MemoryStorage.store_session (st : Store) (session_id : Nat)
    (session : DialogueSession) : Store :=
  assign st session_id session

/-- `MemoryStorage.get_session`: look the id up and, when the session has
expired at the read instant, delete it and return `None`. -/
def MemoryStorage.get_session (st : Store) (session_id : Nat) (now : Time) :
    Option DialogueSession × Store :=
  match dictGet st session_id with
  | none => (none, st)
  | some session =>
      if session.is_expired now then
        (none, (MemoryStorage.delete_session st session_id).2)
      else (some session, st)

/- ----------------------------------------------------------------
   app/core/manager.py  (DialogueManager)
   ---------------------------------------------------------------- -/

/-- The error raised by `DialogueManager.get_session`
(`SessionNotFoundError` of `app/utils/exceptions.py`). -/
inductive MgrError
  | sessionNotFound
deriving DecidableEq

/-- `DialogueManager.get_session`: fetch from storage (which checks expiry at
instant `now1`), raise `SessionNotFound` when absent, and re-verify expiry at
instant `now2` (time may have advanced), deleting and raising when expired. -/
def DialogueManager.get_session (st : Store) (session_id : Nat)
    (now1 now2 : Time) : Except MgrError DialogueSession × Store :=
  match MemoryStorage.get_session st session_id now1 with
  | (none, st2) => (.error .sessionNotFound, st2)
  | (some session, st2) =>
      if session.is_expired now2 then
        (.error .sessionNotFound, (MemoryStorage.delete_session st2 session_id).2)
      else (.ok session, st2)

/-- `DialogueManager.update_session`: stamp `updated_at = now` and persist
through the storage under the session's own id. -/
def DialogueManager.update_session (st : Store) (session : DialogueSession)
    (now : Time) : DialogueSession × Store :=
  let session2 := { session with updated_at := now }
  (session2, MemoryStorage.store_session st session.session_id session2)

/-- `DialogueManager.add_message`: fetch (raising `SessionNotFound` when
absent or expired), append through `DialogueSession.add_message`, persist. -/
def DialogueManager.add_message (st : Store) (session_id : Nat)
    (role : MessageRole) (content : String) (metadata : List (String × String))
    (now : Time) : Except MgrError DialogueSession × Store :=
  match DialogueManager.get_session st session_id now now with
  | (.error e, st2) => (.error e, st2)
  | (.ok session, st2) =>
      let session2 := session.add_message role content metadata now
      let (session3, st3) := DialogueManager.update_session st2 session2 now
      (.ok session3, st3)

/-- One keyword entry of the `**context_updates` of
`DialogueManager.update_context`.  A key naming a declared `DialogueContext`
field passes the `hasattr` probe and is set directly; any `other` key lands
in the `session_data` map. -/
inductive ContextUpdate
  | customerId (v : Option String)
  | customerName (v : Option String)
  | requestType (v : Option RequestType)
  | priority (v : Priority)
  | sessionData (v : List (String × String))
  | classificationConfidence (v : ℚ)
  | responseCount (v : Nat)
  | satisfactionScore (v : Option ℚ)
  | escalationReason (v : Option String)
  | other (key : String) (value : String)
deriving DecidableEq

/-- `setattr(session.context, key, value)` for a known key, or
`session.context.session_data[key] = value` for an unknown one. -/
def applyContextUpdate (c : DialogueContext) : ContextUpdate → DialogueContext
  | .customerId v => { c with customer_id := v }
  | .customerName v => { c with customer_name := v }
  | .requestType v => { c with request_type := v }
  | .priority v => { c with priority := v }
  | .sessionData v => { c with session_data := v }
  | .classificationConfidence v => { c with classification_confidence := v }
  | .responseCount v => { c with response_count := v }
  | .satisfactionScore v => { c with satisfaction_score := v }
  | .escalationReason v => { c with escalation_reason := v }
  | .other key value => { c with session_data := assign c.session_data key value }

/-- `DialogueManager.update_context`: fetch, set the known fields that were
passed (`request_type` when truthy, `confidence` when not `None`), fold the
keyword updates, persist. -/
def DialogueManager.update_context (st : Store) (session_id : Nat)
    (request_type : Option RequestType) (confidence : Option ℚ)
    (context_updates : List ContextUpdate) (now : Time) :
    Except MgrError DialogueSession × Store :=
  match DialogueManager.get_session st session_id now now with
  | (.error e, st2) => (.error e, st2)
  | (.ok session, st2) =>
      let c1 := match request_type with
        | some rt => { session.context with request_type := some rt }
        | none => session.context
      let c2 := match confidence with
        | some q => { c1 with classification_confidence := q }
        | none => c1
      let c3 := context_updates.foldl applyContextUpdate c2
      let session2 := { session with context := c3 }
      let (session3, st3) := DialogueManager.update_session st2 session2 now
      (.ok session3, st3)

/-- `DialogueManager.close_session`: fetch, set `session.status = status`
unconditionally, persist. -/
def DialogueManager.close_session (st : Store) (session_id : Nat)
    (status : DialogueStatus) (now : Time) : Except MgrError Unit × Store :=
  match DialogueManager.get_session st session_id now now with
  | (.error e, st2) => (.error e, st2)
  | (.ok session, st2) =>
      let session2 := { session with status := status }
      let (_, st3) := DialogueManager.update_session st2 session2 now
      (.ok (), st3)

/-- One manager operation of the session-lifecycle state machine: the
mutating operations `DialogueManager` exposes against a session id
(`updateSession` carries the caller's session snapshot, written back under
that snapshot's own id). -/
inductive MgrOp
  | addMessage (role : MessageRole) (content : String)
      (metadata : List (String × String))
  | updateContext (request_type : Option RequestType) (confidence : Option ℚ)
      (context_updates : List ContextUpdate)
  | closeSession (status : DialogueStatus)
  | updateSession (session : DialogueSession)

/-- Apply one manager operation (at wall-clock instant `now`) to the store,
keeping only the resulting store. -/
def mgrStep (session_id : Nat) (st : Store) : MgrOp × Time → Store
  | (.addMessage role content metadata, now) =>
      (DialogueManager.add_message st session_id role content metadata now).2
  | (.updateContext rt conf ups, now) =>
      (DialogueManager.update_context st session_id rt conf ups now).2
  | (.closeSession status, now) =>
      (DialogueManager.close_session st session_id status now).2
  | (.updateSession session, now) =>
      (DialogueManager.update_session st session now).2

/-- Run a sequence of manager operations against one session id. -/
def mgrRun (session_id : Nat) (st : Store) (ops : List (MgrOp × Time)) : Store :=
  ops.foldl (mgrStep session_id) st

/-- An operation that does not itself smuggle an `Active` status back in:
`closeSession` is called with a terminal status, and a raw `updateSession`
write-back targeting this id carries a terminal snapshot. -/
def MgrOp.preservesClosure (session_id : Nat) : MgrOp → Prop
  | .closeSession status => status.isTerminal = true
  | .updateSession session =>
      session.session_id = session_id → session.status.isTerminal = true
  | _ => True

/-- The store holds no resurrected session at this id. -/
def terminalAt (st : Store) (session_id : Nat) : Prop :=
  ∀ s, dictGet st session_id = some s → s.status.isTerminal = true

/- ----------------------------------------------------------------
   app/core/metrics.py  (MetricsCollector)
   ---------------------------------------------------------------- -/

/-- `SessionMetrics` of `app/core/metrics.py`. -/
structure SessionMetrics where
  session_id : String
  request_type : Option String := none
  response_times : List Int := []
  tokens_used : Int := 0
  total_cost : ℚ := 0
  satisfaction_score : Option ℚ := none
  classification_confidence : ℚ := 0
  created_at : Time := 0
deriving DecidableEq

/-- One `HourlyStats` bucket of `app/core/metrics.py` (the `defaultdict`
default is the all-empty bucket, i.e. `{}` here). -/
structure HourlyStats where
  sessions : Int := 0
  total_tokens : Int := 0
  total_cost : ℚ := 0
  response_times : List Int := []
  satisfactions : List ℚ := []
deriving DecidableEq

/-- The whole `MetricsCollector` state: the per-session sample rows and the
hourly buckets (keyed by the `"%Y-%m-%d-%H"` string). -/
structure MetricsCollector where
  session_metrics : List (String × SessionMetrics) := []
  hourly_stats : List (String × HourlyStats) := []
deriving DecidableEq

/-- `MetricsCollector.track_session_start`: create (or overwrite) the sample
row for the session. -/
def MetricsCollector.track_session_start (mc : MetricsCollector)
    (session_id : String) (request_type : Option String) (confidence : ℚ)
    (now : Time) : MetricsCollector :=
  let row : SessionMetrics :=
    { session_id := session_id, request_type := request_type,
      classification_confidence := confidence, created_at := now }
  { mc with session_metrics := assign mc.session_metrics session_id row }

/-- `MetricsCollector.track_response`: when the session row exists, append
the latency and accumulate tokens and cost on the row and on the current
hour bucket (which also counts one more session); otherwise do nothing.
`hour_key` is `datetime.now().strftime("%Y-%m-%d-%H")`. -/
def MetricsCollector.track_response (mc : MetricsCollector)
    (session_id : String) (response_time_ms : Int) (tokens : Int) (cost : ℚ)
    (hour_key : String) : MetricsCollector :=
  match dictGet mc.session_metrics session_id with
  | none => mc
  | some m =>
      let m2 := { m with
        response_times := m.response_times ++ [response_time_ms]
        tokens_used := m.tokens_used + tokens
        total_cost := m.total_cost + cost }
      { session_metrics := assign mc.session_metrics session_id m2
        hourly_stats := updateD mc.hourly_stats hour_key {} (fun h =>
          { h with
            sessions := h.sessions + 1
            total_tokens := h.total_tokens + tokens
            total_cost := h.total_cost + cost
            response_times := h.response_times ++ [response_time_ms] }) }

/-- `MetricsCollector.track_satisfaction`: when the session row exists, set
its satisfaction and append the score to the current hour bucket; otherwise
do nothing. -/
def MetricsCollector.track_satisfaction (mc : MetricsCollector)
    (session_id : String) (score : ℚ) (hour_key : String) : MetricsCollector :=
  match dictGet mc.session_metrics session_id with
  | none => mc
  | some m =>
      { session_metrics := assign mc.session_metrics session_id
          { m with satisfaction_score := some score }
        hourly_stats := updateD mc.hourly_stats hour_key {} (fun h =>
          { h with satisfactions := h.satisfactions ++ [score] }) }

/- ----------------------------------------------------------------
   app/core/client.py and app/services/classification_service.py
   ---------------------------------------------------------------- -/

/-- The failure kinds `LLMClient.generate_response` raises after exhausting
its retries (`LLMTimeoutError`, `LLMRateLimitError`, `LLMError`). -/
inductive LLMFailure
  | timeout
  | rateLimit
  | generic
deriving DecidableEq

/-- What `LLMClient.classify_request` finds in the provider's reply content:
not a string at all, a body `json.loads`/field extraction fails on
(`JSONDecodeError`/`ValueError`/`KeyError`), or a successfully extracted
category/confidence/reasoning triple (missing fields already defaulted to
`"general"`, `0.5` and `"Unknown"` by the `.get` calls). -/
inductive ProviderContent
  | notString
  | parseFailure
  | parsed (ty : String) (confidence : ℚ) (reasoning : String)
deriving DecidableEq

/-- One provider interaction as seen by the classification stage: the call
itself raised, or it returned content. -/
inductive ProviderOutcome
  | failure (e : LLMFailure)
  | success (content : ProviderContent)
deriving DecidableEq

/-- `LLMClient.classify_request`: propagate a provider failure; degrade
non-string or unparseable content to the neutral
`{"type": "general", "confidence": 0.5}` dictionary. -/
def classify_request (r : ProviderOutcome) :
    Except LLMFailure (String × ℚ × String) :=
  match r with
  | .failure e => .error e
  | .success .notString => .ok ("general", 1/2, "Invalid response format")
  | .success .parseFailure => .ok ("general", 1/2, "Classification failed")
  | .success (.parsed ty conf reasoning) => .ok (ty, conf, reasoning)

/-- `ClassificationService.classify_message`: convert the category string
through the `RequestType` enum (an unknown value degrades to
`(GENERAL, 0.5)`), and absorb any raised error into `(GENERAL, 0.5)`. -/
def classify_message (r : ProviderOutcome) : RequestType × ℚ :=
  match classify_request r with
  | .error _ => (.general, 1/2)
  | .ok (ty, conf, _) =>
      match RequestType.ofString ty with
      | some rt => (rt, conf)
      | none => (.general, 1/2)

/-- The degraded provider interactions named by the classification claim:
the call errored, the reply failed to parse, or it named a category outside
the closed taxonomy. -/
def degradedOutcome : ProviderOutcome → Prop
  | .failure _ => True
  | .success .notString => True
  | .success .parseFailure => True
  | .success (.parsed ty _ _) => RequestType.ofString ty = none

/- ----------------------------------------------------------------
   Derived notions used by the claims
   ---------------------------------------------------------------- -/

/-- The number of `ASSISTANT`-role messages in a message list. -/
def countAssistant (messages : List Message) : Nat :=
  messages.countP (fun m => m.role == .assistant)

/-- Fold a list of `(role, content, metadata, now)` appends through
`DialogueSession.add_message`. -/
def applyAdds (s : DialogueSession)
    (adds : List (MessageRole × String × List (String × String) × Time)) :
    DialogueSession :=
  adds.foldl (fun acc a => acc.add_message a.1 a.2.1 a.2.2.1 a.2.2.2) s

/- ----------------------------------------------------------------
   Concrete fixtures for witnesses and counterexamples
   ---------------------------------------------------------------- -/

/-- A 501-character body, longer than the 500-character truncation bound. -/
def longBody : String := String.mk (List.replicate 501 'a')

/-- A session holding one user message whose body has 501 characters. -/
def sessionLongUser : DialogueSession :=
  { session_id := 7
    messages := [{ role := .user, content := longBody }] }

/-- A message list holding one system message whose body has 501 characters. -/
def sysLongMessages : List Message :=
  [{ role := .system, content := longBody }]

/-- Settings with cost optimization enabled and a distinct fast model, the
configuration §6 of the spec describes as recognized options. -/
def settingsOpt : Settings :=
  { openai_model := "gpt-4-1106-preview"
    cost_optimization := some true
    openai_model_fast := some "gpt-3.5-turbo-1106"
    max_context_messages := some 10 }

/-- Eleven one-word user messages. -/
def elevenUserMessages : List Message :=
  List.replicate 11 { role := .user, content := "hi" }

/-- A `General`-intent, `High`-priority session with eleven history messages
and no escalation signal. -/
def sessionGeneralHigh : DialogueSession :=
  { session_id := 4
    messages := elevenUserMessages
    context := { request_type := some .general, priority := .high } }

/-- A completed (closed) session with no expiry. -/
def sessionCompleted : DialogueSession :=
  { session_id := 1
    status := .completed
    messages := []
    expires_at := none }

/-- A store holding only the completed session. -/
def storeCompleted : Store := [(1, sessionCompleted)]

/-- An expired session: `expires_at = 10`, read later than that. -/
def sessionExpired : DialogueSession :=
  { session_id := 2
    status := .active
    expires_at := some 10 }

/-- A store holding only the expired session. -/
def storeExpired : Store := [(2, sessionExpired)]

/-- A metrics collector holding one sample row for session `"s1"`. -/
def mcOne : MetricsCollector :=
  { session_metrics := [("s1", { session_id := "s1" })]
    hourly_stats := [] }

/-- Two four-message chat histories that differ only in their oldest
message (their last 3 messages agree). -/
def chatHistoryA : List ChatMessage :=
  [⟨"user", "old-a"⟩, ⟨"assistant", "b"⟩, ⟨"user", "c"⟩, ⟨"user", "d"⟩]

/-- See `chatHistoryA`. -/
def chatHistoryB : List ChatMessage :=
  [⟨"system", "old-z"⟩, ⟨"assistant", "b"⟩, ⟨"user", "c"⟩, ⟨"user", "d"⟩]

/-- A user/assistant/user/assistant append sequence. -/
def addsSample :
    List (MessageRole × String × List (String × String) × Time) :=
  [(.user, "hello", [], 1), (.assistant, "hi there", [], 2),
   (.user, "thanks", [], 3), (.assistant, "welcome", [], 4)]

/-- A non-`General` session with `High` priority (and a short history). -/
def sessionComplaintHigh : DialogueSession :=
  { session_id := 5
    context := { request_type := some .complaint, priority := .high } }

/-- A non-`General` session with `Urgent` priority and a short history. -/
def sessionUrgentComplaint : DialogueSession :=
  { session_id := 6
    messages := [{ role := .user, content := "urgent issue" }]
    context := { request_type := some .complaint, priority := .urgent } }

/-- A short system/user/assistant history. -/
def msgsSample : List Message :=
  [{ role := .system, content := "be helpful" },
   { role := .user, content := "hi" },
   { role := .assistant, content := "hello" }]

/-- A close/add/update operation sequence with only terminal close
statuses. -/
def opsSample : List (MgrOp × Time) :=
  [(.closeSession .escalated, 5), (.addMessage .user "are you there" [], 6),
   (.updateContext none (some (9/10)) [.priority .high], 7)]

/- ================================================================
   Helper lemmas
   ================================================================ -/
theorem dictGet_mapValueAt_self {α β : Type} [DecidableEq α]
    (l : List (α × β)) (key : α) (g : β → β) :
    dictGet (mapValueAt l key g) key = (dictGet l key).map g := by
  induction l with
  | nil => rfl
  | cons kv rest ih =>
      by_cases h : kv.1 = key
      · simp [mapValueAt, dictGet, h]
      · simp only [mapValueAt, List.map_cons, if_neg h, dictGet] at ih ⊢
        simp [h, ih]

theorem dictGet_mapValueAt_ne {α β : Type} [DecidableEq α]
    (l : List (α × β)) (key key2 : α) (g : β → β) (h : key2 ≠ key) :
    dictGet (mapValueAt l key g) key2 = dictGet l key2 := by
  induction l with
  | nil => rfl
  | cons kv rest ih =>
      by_cases hk : kv.1 = key
      · have h2 : key ≠ key2 := fun he => h he.symm
        simp [mapValueAt, dictGet, hk, h2] at ih ⊢
        simpa [mapValueAt] using ih
      · simp only [mapValueAt, List.map_cons, if_neg hk, dictGet] at ih ⊢
        by_cases h2 : kv.1 = key2
        · simp [h2]
        · simp [h2, ih]

theorem dictGet_append_of_none {α β : Type} [DecidableEq α]
    (l1 l2 : List (α × β)) (key : α) (h : dictGet l1 key = none) :
    dictGet (l1 ++ l2) key = dictGet l2 key := by
  induction l1 with
  | nil => rfl
  | cons kv rest ih =>
      by_cases hk : kv.1 = key
      · simp [dictGet, hk] at h
      · simp [dictGet, hk] at h ⊢
        exact ih h

theorem dictGet_assign_self {α β : Type} [DecidableEq α]
    (l : List (α × β)) (key : α) (v : β) :
    dictGet (assign l key v) key = some v := by
  unfold assign
  by_cases hp : (dictGet l key).isSome
  · rw [if_pos hp, dictGet_mapValueAt_self]
    obtain ⟨w, hw⟩ := Option.isSome_iff_exists.mp hp
    simp [hw]
  · rw [if_neg hp]
    have hnone : dictGet l key = none := Option.not_isSome_iff_eq_none.mp hp
    rw [dictGet_append_of_none _ _ _ hnone]
    simp [dictGet]

theorem dictGet_append_single_ne {α β : Type} [DecidableEq α]
    (l : List (α × β)) (key key2 : α) (v : β) (h : key2 ≠ key) :
    dictGet (l ++ [(key, v)]) key2 = dictGet l key2 := by
  induction l with
  | nil =>
      have h2 : key ≠ key2 := fun he => h he.symm
      simp [dictGet, h2]
  | cons kv rest ih =>
      by_cases h2 : kv.1 = key2
      · simp [dictGet, h2]
      · simp [dictGet, h2, ih]

theorem dictGet_assign_ne {α β : Type} [DecidableEq α]
    (l : List (α × β)) (key key2 : α) (v : β) (h : key2 ≠ key) :
    dictGet (assign l key v) key2 = dictGet l key2 := by
  unfold assign
  by_cases hp : (dictGet l key).isSome
  · rw [if_pos hp, dictGet_mapValueAt_ne _ _ _ _ h]
  · rw [if_neg hp, dictGet_append_single_ne _ _ _ _ h]

theorem dictGet_updateD_self {α β : Type} [DecidableEq α]
    (l : List (α × β)) (key : α) (d0 : β) (f : β → β) :
    dictGet (updateD l key d0 f) key = some (f ((dictGet l key).getD d0)) := by
  unfold updateD
  by_cases hp : (dictGet l key).isSome
  · rw [if_pos hp, dictGet_mapValueAt_self]
    obtain ⟨w, hw⟩ := Option.isSome_iff_exists.mp hp
    simp [hw]
  · rw [if_neg hp]
    have hnone : dictGet l key = none := Option.not_isSome_iff_eq_none.mp hp
    rw [dictGet_append_of_none _ _ _ hnone]
    simp [dictGet, hnone]

theorem dictGet_eraseKey_self {α β : Type} [DecidableEq α]
    (l : List (α × β)) (key : α) :
    dictGet (eraseKey l key) key = none := by
  induction l with
  | nil => rfl
  | cons kv rest ih =>
      by_cases hk : kv.1 = key
      · simpa [eraseKey, List.filter_cons, hk] using ih
      · simpa [eraseKey, List.filter_cons, hk, dictGet] using ih

theorem dictGet_eraseKey_ne {α β : Type} [DecidableEq α]
    (l : List (α × β)) (key key2 : α) (h : key2 ≠ key) :
    dictGet (eraseKey l key) key2 = dictGet l key2 := by
  induction l with
  | nil => rfl
  | cons kv rest ih =>
      by_cases hk : kv.1 = key
      · have h2 : kv.1 ≠ key2 := by
          rw [hk]
          exact fun he => h he.symm
        simp only [eraseKey, List.filter_cons, hk] at ih ⊢
        simp only [dictGet, if_neg h2]
        simpa [eraseKey] using ih
      · by_cases h2 : kv.1 = key2
        · simp [eraseKey, List.filter_cons, hk, dictGet, h2, h]
        · simp [eraseKey, List.filter_cons, hk, dictGet, h2] at ih ⊢
          exact ih


/- ================================================================
   C2: classification degrades, never raises
   ================================================================ -/

/-- C2: for every provider interaction, `classify_message` is a total
function (the embedding of a method that catches every exception), and
whenever the provider call errored, the reply failed to parse, or the reply
named a category outside `{TechSupport, Sales, Complaint, General}`, it
returns exactly `(General, 0.5)`. -/
theorem classify_message_degrades_to_general (r : ProviderOutcome)
    (h : degradedOutcome r) : classify_message r = (.general, 1/2) := by
  cases r with
  | failure e => rfl
  | success c =>
      cases c with
      | notString => rfl
      | parseFailure => rfl
      | parsed ty conf reasoning =>
          have hty : RequestType.ofString ty = none := h
          simp [classify_message, classify_request, hty]

/-- Witness for C2: a reply naming the unknown category `"spam"` with high
confidence still comes back as `(General, 0.5)`. -/
theorem classify_message_degrades_to_general_witness :
    classify_message (.success (.parsed "spam" (9/10) "looks like spam")) =
      (.general, 1/2) :=
  classify_message_degrades_to_general _
    (show RequestType.ofString "spam" = none by rfl)

/- ================================================================
   C7: cache key determinism
   ================================================================ -/

/-- C7: the cache key is a deterministic function of the last 3 messages,
the model and the temperature — two message lists agreeing on their last 3
messages give the identical key for equal model and temperature — and
changing the temperature alone changes the key. -/
theorem cache_key_deterministic (ms1 ms2 : List ChatMessage) (model : String)
    (t t1 t2 : ℚ) (hlast : pySliceLast 3 ms1 = pySliceLast 3 ms2)
    (hne : t1 ≠ t2) :
    get_cache_key ms1 model t = get_cache_key ms2 model t ∧
    get_cache_key ms1 model t1 ≠ get_cache_key ms1 model t2 := by
  constructor
  · simp [get_cache_key, hlast]
  · intro he
    exact hne (congrArg CacheData.temperature he)

/-- Witness for C7: two four-message histories differing only in their
oldest message key identically at temperature `7/10`, and temperatures `0`
and `1` give different keys. -/
theorem cache_key_deterministic_witness :
    get_cache_key chatHistoryA "gpt-4-1106-preview" (7/10) =
      get_cache_key chatHistoryB "gpt-4-1106-preview" (7/10) ∧
    get_cache_key chatHistoryA "gpt-4-1106-preview" 0 ≠
      get_cache_key chatHistoryA "gpt-4-1106-preview" 1 :=
  cache_key_deterministic chatHistoryA chatHistoryB "gpt-4-1106-preview"
    (7/10) 0 1 (by decide) (by norm_num)

/- ================================================================
   C10: response_count counts assistant messages
   ================================================================ -/

theorem add_message_response_count (s : DialogueSession) (role : MessageRole)
    (content : String) (metadata : List (String × String)) (now : Time) :
    (s.add_message role content metadata now).context.response_count =
      s.context.response_count + (if role = .assistant then 1 else 0) := by
  by_cases h : role = .assistant <;>
    simp [DialogueSession.add_message, h]

theorem countAssistant_append_single (l : List Message) (m : Message) :
    countAssistant (l ++ [m]) =
      countAssistant l + (if m.role = .assistant then 1 else 0) := by
  by_cases h : m.role = .assistant <;>
    simp [countAssistant, List.countP_append, List.countP_cons, h]

theorem add_message_countAssistant (s : DialogueSession) (role : MessageRole)
    (content : String) (metadata : List (String × String)) (now : Time) :
    countAssistant (s.add_message role content metadata now).messages =
      countAssistant s.messages + (if role = .assistant then 1 else 0) := by
  simp [DialogueSession.add_message, countAssistant_append_single]

theorem applyAdds_response_count (s : DialogueSession)
    (adds : List (MessageRole × String × List (String × String) × Time))
    (hbase : s.context.response_count = countAssistant s.messages) :
    (applyAdds s adds).context.response_count =
      countAssistant (applyAdds s adds).messages := by
  induction adds generalizing s with
  | nil => exact hbase
  | cons a rest ih =>
      have hstep :
          (s.add_message a.1 a.2.1 a.2.2.1 a.2.2.2).context.response_count =
            countAssistant (s.add_message a.1 a.2.1 a.2.2.1 a.2.2.2).messages := by
        rw [add_message_response_count, add_message_countAssistant, hbase]
      exact ih _ hstep

/-- C10: `response_count` is incremented by `add_message` exactly when the
appended role is `Assistant`, and for any session whose counter matches its
assistant-message count, any sequence of `add_message` calls keeps
`context.response_count` equal to the number of assistant messages. -/
theorem response_count_tracks_assistant (s : DialogueSession)
    (adds : List (MessageRole × String × List (String × String) × Time))
    (hbase : s.context.response_count = countAssistant s.messages) :
    (∀ role content metadata now,
        (s.add_message role content metadata now).context.response_count =
          s.context.response_count + (if role = .assistant then 1 else 0)) ∧
    (applyAdds s adds).context.response_count =
      countAssistant (applyAdds s adds).messages :=
  ⟨fun role content metadata now =>
      add_message_response_count s role content metadata now,
    applyAdds_response_count s adds hbase⟩

/-- Witness for C10: from a fresh session, a user/assistant/user/assistant
append sequence leaves `response_count` equal to the assistant count (2). -/
theorem response_count_tracks_assistant_witness :
    (applyAdds {} addsSample).context.response_count =
      countAssistant (applyAdds {} addsSample).messages ∧
    (applyAdds {} addsSample).context.response_count = 2 :=
  ⟨(response_count_tracks_assistant {} addsSample (by rfl)).2, by decide⟩


/- ================================================================
   C4: model-tier selection
   ================================================================ -/

theorem priority_toValue_mem_high (p : Priority) :
    p.toValue ∈ ["high"] ↔ p = .high := by
  cases p <;> decide

/-- C4 counterexample: with cost optimization on, a `General`-intent session
with `High` priority and an 11-message history still gets the fast model
(the `General` check runs first), and an `Urgent`-priority non-`General`
session also gets the fast model (the premium check tests only `"high"`) —
both contradict the claim that `High`/`Urgent` priority or a history longer
than 10 always selects the premium/default model. -/
theorem select_model_counterexample :
    settingsOpt.cost_optimization = some true ∧
    sessionGeneralHigh.context.priority = .high ∧
    sessionGeneralHigh.messages.length = 11 ∧
    select_optimal_model settingsOpt sessionGeneralHigh =
      "gpt-3.5-turbo-1106" ∧
    settingsOpt.openai_model = "gpt-4-1106-preview" ∧
    sessionUrgentComplaint.context.priority = .urgent ∧
    select_optimal_model settingsOpt sessionUrgentComplaint =
      "gpt-3.5-turbo-1106" := by
  decide

/-- C4 (amended): with cost optimization disabled the default model is
always selected.  With it enabled, a `General`-intent session always gets
the fast model (regardless of priority or history length); a non-`General`
session gets the default model exactly when its priority is `High` (not
`Urgent`) or its history exceeds 10 messages, and the fast model
otherwise. -/
theorem select_model_amended (st : Settings) (s : DialogueSession) :
    (st.cost_optimization.getD false = false →
      select_optimal_model st s = st.openai_model) ∧
    (st.cost_optimization.getD false = true →
      (s.context.request_type = some .general →
        select_optimal_model st s = st.openai_model_fast.getD st.openai_model) ∧
      (s.context.request_type ≠ some .general →
        ((s.context.priority = .high ∨ 10 < s.messages.length) →
          select_optimal_model st s = st.openai_model) ∧
        (s.context.priority ≠ .high ∧ s.messages.length ≤ 10 →
          select_optimal_model st s =
            st.openai_model_fast.getD st.openai_model))) := by
  refine ⟨fun hoff => ?_,
    fun hon => ⟨fun hgen => ?_,
      fun hngen => ⟨fun hprem => ?_, fun hfast => ?_⟩⟩⟩
  · simp [select_optimal_model, hoff]
  · simp [select_optimal_model, hon, hgen]
  · have h1 : ¬((!st.cost_optimization.getD false) = true) := by
      rw [hon]
      decide
    have hcond : s.context.priority.toValue ∈ ["high"] ∨
        s.messages.length > 10 := by
      rcases hprem with h | h
      · exact Or.inl ((priority_toValue_mem_high _).mpr h)
      · exact Or.inr h
    unfold select_optimal_model
    rw [if_neg h1, if_neg hngen, if_pos hcond]
  · have h1 : ¬((!st.cost_optimization.getD false) = true) := by
      rw [hon]
      decide
    have hcond : ¬(s.context.priority.toValue ∈ ["high"] ∨
        s.messages.length > 10) := by
      rintro (hm | hl)
      · exact hfast.1 ((priority_toValue_mem_high _).mp hm)
      · omega
    unfold select_optimal_model
    rw [if_neg h1, if_neg hngen, if_neg hcond]

/-- Witness for C4 (amended): a `Complaint`/`High` session gets the default
model when optimization is on, and with the shipped settings (optimization
attribute absent, hence off) even the `General`/`High` session gets the
default model. -/
theorem select_model_amended_witness :
    select_optimal_model settingsOpt sessionComplaintHigh =
      settingsOpt.openai_model ∧
    select_optimal_model appSettings sessionGeneralHigh =
      appSettings.openai_model :=
  ⟨(((select_model_amended settingsOpt sessionComplaintHigh).2 rfl).2
      (by decide)).1 (Or.inl rfl),
    (select_model_amended appSettings sessionGeneralHigh).1 rfl⟩

/- ================================================================
   C6: cost estimation
   ================================================================ -/

/-- C6 counterexample: `"unknown-model"` is not in the rate table, the
`Settings` class declares no `openai_model_fast`, so the fallback resolves
to the default model `gpt-4-1106-preview` and the cost of 1000/500 tokens
comes out at its premium rate `1/40` (= 0.025) — not the `1/500` (= 0.002)
that the fast-tier rate table `{input: 0.001, output: 0.002}` would give. -/
theorem estimate_cost_fallback_counterexample :
    dictGet model_costs "unknown-model" = none ∧
    appSettings.openai_model_fast = none ∧
    estimate_cost appSettings 1000 500 "unknown-model" = some (1/40) ∧
    round6 ((1000 : ℚ) / 1000 * (1/1000) + (500 : ℚ) / 1000 * (2/1000)) =
      1/500 ∧
    (1/40 : ℚ) ≠ 1/500 := by
  refine ⟨by decide, rfl, ?_, by norm_num [round6, round_eq], by norm_num⟩
  show estimate_cost appSettings 1000 500 "unknown-model" = some (1/40)
  have h1 : ("gpt-4-1106-preview" : String) ≠ "unknown-model" := by decide
  have h2 : ("gpt-3.5-turbo-1106" : String) ≠ "unknown-model" := by decide
  simp only [estimate_cost, appSettings, model_costs, dictGet, if_neg h1,
    if_neg h2]
  norm_num [round6, round_eq]

/-- C6 (amended): for every model in the rate table, `estimate_cost` is
`round6 ((promptTokens/1000)·inputRate + (completionTokens/1000)·outputRate)`;
for a model outside the table it computes the cost of
`getattr(settings, "openai_model_fast", settings.openai_model)`, which on
the shipped configuration is the default (premium) model, not a fast tier. -/
theorem estimate_cost_formula (st : Settings) (p c : Nat) (model : String) :
    (∀ rates, dictGet model_costs model = some rates →
        estimate_cost st p c model =
          some (round6 ((p : ℚ) / 1000 * rates.1 +
            (c : ℚ) / 1000 * rates.2))) ∧
    (dictGet model_costs model = none →
        estimate_cost st p c model =
          estimate_cost st p c (st.openai_model_fast.getD st.openai_model)) := by
  constructor
  · intro rates h
    simp [estimate_cost, h]
  · intro h
    by_cases hf :
        (dictGet model_costs (st.openai_model_fast.getD st.openai_model)).isSome <;>
      simp [estimate_cost, h, hf]

/-- Witness for C6: 1000 prompt and 500 completion tokens on the premium
model cost `round6(1000/1000·0.01 + 500/1000·0.03) = 1/40 = 0.025`, and an
unknown model is priced exactly like the resolved fallback model. -/
theorem estimate_cost_formula_witness :
    estimate_cost appSettings 1000 500 "gpt-4-1106-preview" =
      some (round6 ((1000 : ℚ) / 1000 * (1/100) +
        (500 : ℚ) / 1000 * (3/100))) ∧
    estimate_cost appSettings 1000 500 "unknown-model" =
      estimate_cost appSettings 1000 500
        (appSettings.openai_model_fast.getD appSettings.openai_model) ∧
    round6 ((1000 : ℚ) / 1000 * (1/100) + (500 : ℚ) / 1000 * (3/100)) =
      1/40 :=
  ⟨(estimate_cost_formula appSettings 1000 500 "gpt-4-1106-preview").1
      (1/100, 3/100) (by norm_num [dictGet, model_costs]),
    (estimate_cost_formula appSettings 1000 500 "unknown-model").2 (by decide),
    by norm_num [round6, round_eq]⟩


/- ================================================================
   C5: context compression; C3: the prompt the orchestrator sends
   ================================================================ -/

theorem toValue_eq_system_iff (r : MessageRole) :
    r.toValue = "system" ↔ r = .system := by
  cases r <;> decide

theorem pySliceLast_length_le {α : Type} (n : Nat) (l : List α) (hn : n ≠ 0) :
    (pySliceLast n l).length ≤ n := by
  unfold pySliceLast
  rw [if_neg hn, List.length_drop]
  omega

theorem truncate500_length_of_long (c : String) (h : 500 < c.length) :
    (truncate500 c).length = 503 := by
  have hc : c.length = c.data.length := rfl
  rw [truncate500, if_pos h, String.length_append, String.take_eq]
  have h3 : ("..." : String).length = 3 := rfl
  have h4 : (String.mk (List.take 500 c.data)).length =
      (List.take 500 c.data).length := String.mk_length _
  rw [h3, h4, List.length_take]
  omega

theorem firstSystem_cases (messages : List Message) :
    firstSystem messages = [] ∨
      ∃ m, m ∈ messages ∧ m.role = .system ∧
        firstSystem messages = [⟨"system", m.content⟩] := by
  induction messages with
  | nil => exact Or.inl rfl
  | cons m rest ih =>
      by_cases h : m.role.toValue = "system"
      · refine Or.inr ⟨m, List.mem_cons_self m rest,
          (toValue_eq_system_iff _).mp h, ?_⟩
        simp [firstSystem, h]
      · rcases ih with h0 | ⟨m0, hm0, hr0, he⟩
        · exact Or.inl (by simp [firstSystem, h, h0])
        · exact Or.inr ⟨m0, List.mem_cons_of_mem _ hm0, hr0,
            by simp [firstSystem, h, he]⟩

theorem compress_trailing_spec (st : Settings) (messages : List Message)
    (cm : ChatMessage)
    (hcm : cm ∈ (pySliceLast (st.max_context_messages.getD 10)
        messages).filterMap (fun m =>
          if m.role.toValue ≠ "system" then
            some ⟨m.role.toValue, truncate500 m.content⟩
          else none)) :
    cm.role ≠ "system" ∧
      ∃ m, m ∈ pySliceLast (st.max_context_messages.getD 10) messages ∧
        m.role ≠ .system ∧ cm.content = truncate500 m.content := by
  rcases List.mem_filterMap.mp hcm with ⟨m, hm, hf⟩
  by_cases hc : m.role.toValue ≠ "system"
  · rw [if_pos hc] at hf
    injection hf with hf
    subst hf
    refine ⟨hc, m, hm, ?_, rfl⟩
    intro he
    exact hc (by rw [he]; rfl)
  · rw [if_neg hc] at hf
    exact Option.noConfusion hf

/-- C5 counterexample: a 501-character system message is emitted by
`compress_context` with its body unchanged (length 501, no truncation, no
ellipsis) — the claim that every emitted body over 500 characters is
truncated fails on the leading system message, which the first loop copies
verbatim. -/
theorem compress_context_system_counterexample :
    500 < longBody.length ∧
    compress_context appSettings sysLongMessages = [⟨"system", longBody⟩] := by
  have hlen : longBody.length = 501 := by
    simp only [longBody, String.mk_length, List.length_replicate]
  constructor
  · omega
  · simp [compress_context, sysLongMessages, firstSystem,
      MessageRole.toValue, pySliceLast, appSettings]

/-- C5 (amended): `compress_context` emits at most one system message and
only in leading position, at most the configured maximum (default 10) of
non-system messages, every emitted non-system body is `truncate500` of a
message in the recent slice (bodies over 500 characters become the
500-character prefix plus an ellipsis, shorter bodies are unchanged) — but
the emitted system message is copied from the source verbatim, without
truncation. -/
theorem compress_context_amended (st : Settings) (messages : List Message)
    (hmax : st.max_context_messages.getD 10 ≠ 0) :
    ((compress_context st messages).countP
        (fun cm => cm.role == "system") ≤ 1) ∧
    (∀ cm ∈ (compress_context st messages).drop 1, cm.role ≠ "system") ∧
    (((compress_context st messages).filter
        (fun cm => cm.role != "system")).length ≤
      st.max_context_messages.getD 10) ∧
    (∀ cm ∈ compress_context st messages, cm.role ≠ "system" →
      ∃ m, m ∈ pySliceLast (st.max_context_messages.getD 10) messages ∧
        m.role ≠ .system ∧ cm.content = truncate500 m.content ∧
        (500 < m.content.length →
          cm.content = m.content.take 500 ++ "...") ∧
        (m.content.length ≤ 500 → cm.content = m.content)) ∧
    (∀ cm ∈ compress_context st messages, cm.role = "system" →
      ∃ m, m ∈ messages ∧ m.role = .system ∧ cm.content = m.content) := by
  have hout : compress_context st messages =
      firstSystem messages ++
        (pySliceLast (st.max_context_messages.getD 10) messages).filterMap
          (fun m => if m.role.toValue ≠ "system" then
              some (ChatMessage.mk m.role.toValue (truncate500 m.content)) else none) := rfl
  have hfslen : (firstSystem messages).length ≤ 1 := by
    rcases firstSystem_cases messages with h | ⟨m0, _, _, h⟩ <;> simp [h]
  have hfsys : ∀ cm ∈ firstSystem messages, cm.role = "system" := by
    rcases firstSystem_cases messages with h | ⟨m0, _, _, h⟩ <;>
      · rw [h]
        intro cm hcm
        simp at hcm
        try (subst hcm; rfl)
  refine ⟨?_, ?_, ?_, ?_, ?_⟩
  · rw [hout, List.countP_append]
    have h1 : (firstSystem messages).countP
        (fun cm => cm.role == "system") ≤ 1 :=
      le_trans (List.countP_le_length _) hfslen
    have h2 : ((pySliceLast (st.max_context_messages.getD 10)
        messages).filterMap (fun m =>
          if m.role.toValue ≠ "system" then
            some (ChatMessage.mk m.role.toValue (truncate500 m.content))
          else none)).countP (fun cm => cm.role == "system") = 0 := by
      rw [List.countP_eq_zero]
      intro cm hcm
      simp only [beq_iff_eq]
      exact (compress_trailing_spec st messages cm hcm).1
    omega
  · rw [hout]
    rcases firstSystem_cases messages with h | ⟨m0, _, _, h⟩ <;> rw [h]
    · intro cm hcm
      exact (compress_trailing_spec st messages cm
        (List.mem_of_mem_drop hcm)).1
    · intro cm hcm
      simp only [List.cons_append, List.nil_append, List.drop_succ_cons,
        List.drop_zero] at hcm
      exact (compress_trailing_spec st messages cm hcm).1
  · rw [hout, List.filter_append, List.length_append]
    have h1 : (firstSystem messages).filter
        (fun cm => cm.role != "system") = [] := by
      rcases firstSystem_cases messages with h | ⟨m0, _, _, h⟩ <;> rw [h]
      · rfl
      · simp
    have h2 : (((pySliceLast (st.max_context_messages.getD 10)
        messages).filterMap (fun m =>
          if m.role.toValue ≠ "system" then
            some (ChatMessage.mk m.role.toValue (truncate500 m.content))
          else none)).filter (fun cm => cm.role != "system")).length ≤
        st.max_context_messages.getD 10 :=
      le_trans (List.length_filter_le _ _)
        (le_trans (List.length_filterMap_le _ _)
          (pySliceLast_length_le _ _ hmax))
    rw [h1]
    simpa using h2
  · rw [hout]
    intro cm hcm hrole
    rcases List.mem_append.mp hcm with hl | hr
    · exact absurd (hfsys cm hl) hrole
    · rcases (compress_trailing_spec st messages cm hr).2 with
        ⟨m, hm, hmr, hmc⟩
      refine ⟨m, hm, hmr, hmc, fun hlong => ?_, fun hshort => ?_⟩
      · rw [hmc, truncate500, if_pos hlong]
      · rw [hmc, truncate500, if_neg (by omega)]
  · rw [hout]
    intro cm hcm hrole
    rcases List.mem_append.mp hcm with hl | hr
    · rcases firstSystem_cases messages with h | ⟨m0, hm0, hr0, h⟩
      · rw [h] at hl
        exact absurd hl (List.not_mem_nil cm)
      · rw [h] at hl
        rcases List.mem_singleton.mp hl with rfl
        exact ⟨m0, hm0, hr0, rfl⟩
    · exact absurd hrole (compress_trailing_spec st messages cm hr).1

/-- Witness for C5 (amended): on a short three-message history with the
shipped settings, the compressed output has at most one system message and
at most 10 non-system messages. -/
theorem compress_context_amended_witness :
    ((compress_context appSettings msgsSample).countP
        (fun cm => cm.role == "system") ≤ 1) ∧
    (((compress_context appSettings msgsSample).filter
        (fun cm => cm.role != "system")).length ≤
      appSettings.max_context_messages.getD 10) :=
  ⟨(compress_context_amended appSettings msgsSample (by decide)).1,
    (compress_context_amended appSettings msgsSample (by decide)).2.2.1⟩

/-- C3 counterexample: for a session holding one 501-character user message,
the prompt `_generate_contextual_response` sends to the provider carries the
body verbatim at length 501, while the Optimizer's `compress_context` on the
same history would emit a single 503-character truncated body — so the
history sent is not the Optimizer-compressed one (and by code inspection
`select_optimal_model`, `get_cache_key`, `get_cached_response` have no call
site in the service at all). -/
theorem orchestrator_prompt_counterexample :
    ((build_provider_messages sessionLongUser).get? 1).map
        (fun cm => cm.content.length) = some 501 ∧
    (compress_context appSettings sessionLongUser.messages).map
        (fun cm => cm.content.length) = [503] := by
  have hlen : longBody.length = 501 := by
    simp only [longBody, String.mk_length, List.length_replicate]
  have hus : ("user" : String) ≠ "system" := by decide
  constructor
  · simp [build_provider_messages, sessionLongUser,
      DialogueSession.get_recent_messages, pySliceLast, MessageRole.toValue,
      hlen]
  · simp [compress_context, sessionLongUser, firstSystem,
      MessageRole.toValue, pySliceLast, appSettings, hus,
      truncate500_length_of_long longBody (by omega)]

/-- C3 (amended): the prompt the service sends to the provider is built
without the Optimizer: exactly one leading system message (intent template
plus rendered context), at most 11 messages in total, and the remaining
entries are the last 10 session messages with their bodies copied verbatim
(no truncation). -/
theorem orchestrator_prompt_amended (session : DialogueSession) :
    ((build_provider_messages session).head?.map ChatMessage.role =
      some "system") ∧
    (build_provider_messages session).length ≤ 11 ∧
    ((build_provider_messages session).drop 1).map ChatMessage.content =
      (pySliceLast 10 session.messages).map Message.content := by
  refine ⟨rfl, ?_, ?_⟩
  · simp only [build_provider_messages, List.length_cons, List.length_map,
      DialogueSession.get_recent_messages]
    have := pySliceLast_length_le 10 session.messages (by decide)
    omega
  · simp only [build_provider_messages, DialogueSession.get_recent_messages,
      List.drop_succ_cons, List.drop_zero, List.map_map]
    rfl


/- ================================================================
   C1: lazy expiry on read
   ================================================================ -/

/-- C1: for a session whose `expires_at` lies in the past at read time
(either `datetime.now()` sample of the two expiry checks), the Store `get`
returns `None` and evicts the entry, and the Manager `get` raises
`SessionNotFound` and leaves no entry at the id — the expired session is
never returned and no longer occupies internal state. -/
theorem expired_get_deletes (st : Store) (session_id : Nat)
    (s : DialogueSession) (now1 now2 : Time)
    (hlk : dictGet st session_id = some s)
    (hexp : s.is_expired now1 = true ∨ s.is_expired now2 = true) :
    (s.is_expired now1 = true →
      (MemoryStorage.get_session st session_id now1).1 = none ∧
      dictGet (MemoryStorage.get_session st session_id now1).2 session_id =
        none) ∧
    (DialogueManager.get_session st session_id now1 now2).1 =
      Except.error .sessionNotFound ∧
    dictGet (DialogueManager.get_session st session_id now1 now2).2
      session_id = none := by
  have hdel : (MemoryStorage.delete_session st session_id).2 =
      eraseKey st session_id := by
    unfold MemoryStorage.delete_session
    rw [if_pos (by simp [hlk])]
  by_cases h1 : s.is_expired now1 = true
  · have hstore : MemoryStorage.get_session st session_id now1 =
        (none, eraseKey st session_id) := by
      unfold MemoryStorage.get_session
      rw [hlk]
      simp [h1, hdel]
    have hmgr : DialogueManager.get_session st session_id now1 now2 =
        (Except.error .sessionNotFound, eraseKey st session_id) := by
      unfold DialogueManager.get_session
      rw [hstore]
    refine ⟨fun _ => ?_, ?_, ?_⟩
    · rw [hstore]
      exact ⟨rfl, dictGet_eraseKey_self st session_id⟩
    · rw [hmgr]
    · rw [hmgr]
      exact dictGet_eraseKey_self st session_id
  · have h2 : s.is_expired now2 = true := hexp.resolve_left h1
    have hstore : MemoryStorage.get_session st session_id now1 =
        (some s, st) := by
      unfold MemoryStorage.get_session
      rw [hlk]
      simp [h1]
    have hmgr : DialogueManager.get_session st session_id now1 now2 =
        (Except.error .sessionNotFound, eraseKey st session_id) := by
      unfold DialogueManager.get_session
      rw [hstore]
      simp [h2, hdel]
    refine ⟨fun hc => absurd hc h1, ?_, ?_⟩
    · rw [hmgr]
    · rw [hmgr]
      exact dictGet_eraseKey_self st session_id

/-- Witness for C1: the session with expiry instant 10, read at instant 20,
is reported `SessionNotFound` and its entry is gone. -/
theorem expired_get_deletes_witness :
    (DialogueManager.get_session storeExpired 2 20 20).1 =
      Except.error .sessionNotFound ∧
    dictGet (DialogueManager.get_session storeExpired 2 20 20).2 2 = none :=
  ⟨(expired_get_deletes storeExpired 2 sessionExpired 20 20 (by decide)
      (Or.inl (by decide))).2.1,
    (expired_get_deletes storeExpired 2 sessionExpired 20 20 (by decide)
      (Or.inl (by decide))).2.2⟩

/- ================================================================
   C9: metrics tracking
   ================================================================ -/

/-- C9: tracking for an unknown session id raises nothing and leaves the
whole collector state (session rows and hourly buckets) unchanged; when the
row exists, `track_response` appends the latency and accumulates tokens and
cost on both the session row and the current hour bucket. -/
theorem track_metrics_claim (mc : MetricsCollector) (session_id : String)
    (t k : Int) (c sc : ℚ) (hour : String) :
    (dictGet mc.session_metrics session_id = none →
      mc.track_response session_id t k c hour = mc ∧
      mc.track_satisfaction session_id sc hour = mc) ∧
    (∀ m, dictGet mc.session_metrics session_id = some m →
      ∀ h0, (dictGet mc.hourly_stats hour).getD {} = h0 →
      dictGet (mc.track_response session_id t k c hour).session_metrics
          session_id =
        some { m with response_times := m.response_times ++ [t],
                      tokens_used := m.tokens_used + k,
                      total_cost := m.total_cost + c } ∧
      dictGet (mc.track_response session_id t k c hour).hourly_stats hour =
        some { h0 with sessions := h0.sessions + 1,
                       total_tokens := h0.total_tokens + k,
                       total_cost := h0.total_cost + c,
                       response_times := h0.response_times ++ [t] }) := by
  constructor
  · intro h
    constructor <;>
      simp [MetricsCollector.track_response,
        MetricsCollector.track_satisfaction, h]
  · intro m hm h0 hh0
    constructor
    · simp only [MetricsCollector.track_response, hm]
      exact dictGet_assign_self _ _ _
    · simp only [MetricsCollector.track_response, hm]
      rw [dictGet_updateD_self, hh0]

/-- Witness for C9: the empty collector ignores both tracks for `"s1"`,
while `mcOne` (holding a row for `"s1"`) accumulates 5 ms, 7 tokens and
cost `1/10` on the row and on bucket `"h"`. -/
theorem track_metrics_claim_witness :
    (({} : MetricsCollector).track_response "s1" 5 7 (1/10) "h" = {} ∧
      ({} : MetricsCollector).track_satisfaction "s1" 4 "h" = {}) ∧
    (dictGet (mcOne.track_response "s1" 5 7 (1/10) "h").session_metrics
        "s1" =
      some { session_id := "s1", response_times := [5], tokens_used := 0 + 7,
             total_cost := 0 + 1/10 } ∧
      dictGet (mcOne.track_response "s1" 5 7 (1/10) "h").hourly_stats "h" =
        some { sessions := 0 + 1, total_tokens := 0 + 7,
               total_cost := 0 + 1/10, response_times := [5] }) :=
  ⟨(track_metrics_claim {} "s1" 5 7 (1/10) 4 "h").1 rfl,
    (track_metrics_claim mcOne "s1" 5 7 (1/10) 4 "h").2 _ rfl {} rfl⟩

/- ================================================================
   C8: no resurrection of a closed session
   ================================================================ -/

theorem terminalAt_eraseKey (st : Store) (session_id : Nat) :
    terminalAt (eraseKey st session_id) session_id := by
  intro s hs
  rw [dictGet_eraseKey_self] at hs
  exact Option.noConfusion hs

theorem get_session_spec (st : Store) (session_id : Nat) (now1 now2 : Time) :
    (∀ s, (DialogueManager.get_session st session_id now1 now2).1 =
        Except.ok s →
      dictGet st session_id = some s ∧
      (DialogueManager.get_session st session_id now1 now2).2 = st) ∧
    ((DialogueManager.get_session st session_id now1 now2).2 = st ∨
      (DialogueManager.get_session st session_id now1 now2).2 =
        eraseKey st session_id) := by
  cases hlk : dictGet st session_id with
  | none =>
      have he : DialogueManager.get_session st session_id now1 now2 =
          (Except.error .sessionNotFound, st) := by
        unfold DialogueManager.get_session MemoryStorage.get_session
        rw [hlk]
      rw [he]
      exact ⟨fun s hs => Except.noConfusion hs, Or.inl rfl⟩
  | some s0 =>
      have hdel : (MemoryStorage.delete_session st session_id).2 =
          eraseKey st session_id := by
        unfold MemoryStorage.delete_session
        rw [if_pos (by simp [hlk])]
      by_cases h1 : s0.is_expired now1 = true
      · have he : DialogueManager.get_session st session_id now1 now2 =
            (Except.error .sessionNotFound, eraseKey st session_id) := by
          unfold DialogueManager.get_session MemoryStorage.get_session
          rw [hlk]
          simp [h1, hdel]
        rw [he]
        exact ⟨fun s hs => Except.noConfusion hs, Or.inr rfl⟩
      · by_cases h2 : s0.is_expired now2 = true
        · have he : DialogueManager.get_session st session_id now1 now2 =
              (Except.error .sessionNotFound, eraseKey st session_id) := by
            unfold DialogueManager.get_session MemoryStorage.get_session
            rw [hlk]
            simp [h1, h2, hdel]
          rw [he]
          exact ⟨fun s hs => Except.noConfusion hs, Or.inr rfl⟩
        · have he : DialogueManager.get_session st session_id now1 now2 =
              (Except.ok s0, st) := by
            unfold DialogueManager.get_session MemoryStorage.get_session
            rw [hlk]
            simp [h1, h2]
          rw [he]
          refine ⟨fun s hs => ?_, Or.inl rfl⟩
          injection hs with hs
          subst hs
          exact ⟨rfl, rfl⟩

theorem persist_preserves_terminal (st : Store) (session_id : Nat)
    (s2 : DialogueSession) (now : Time)
    (hterm : terminalAt st session_id)
    (hst : s2.session_id = session_id → s2.status.isTerminal = true) :
    terminalAt (DialogueManager.update_session st s2 now).2 session_id := by
  intro s hs
  simp only [DialogueManager.update_session, MemoryStorage.store_session]
    at hs
  by_cases hid : s2.session_id = session_id
  · rw [hid, dictGet_assign_self] at hs
    injection hs with hs
    subst hs
    exact hst hid
  · rw [dictGet_assign_ne _ _ _ _ (fun he => hid he.symm)] at hs
    exact hterm s hs

theorem mgrStep_preserves_terminal (session_id : Nat) (st : Store)
    (op : MgrOp) (now : Time) (hsafe : op.preservesClosure session_id)
    (hterm : terminalAt st session_id) :
    terminalAt (mgrStep session_id st (op, now)) session_id := by
  cases op with
  | updateSession s0 =>
      exact persist_preserves_terminal st session_id s0 now hterm hsafe
  | addMessage role content metadata =>
      rcases hg : DialogueManager.get_session st session_id now now with
        ⟨r, st2⟩
      have hsnd := (get_session_spec st session_id now now).2
      rw [hg] at hsnd
      cases r with
      | error e =>
          simp only [mgrStep, DialogueManager.add_message, hg]
          rcases hsnd with h | h
          · have h2 : st2 = st := h
            rw [h2]
            exact hterm
          · have h2 : st2 = eraseKey st session_id := h
            rw [h2]
            exact terminalAt_eraseKey st session_id
      | ok s1 =>
          have hfst := (get_session_spec st session_id now now).1 s1
            (by rw [hg])
          have hst2 : st2 = st := by
            have h := hfst.2
            rw [hg] at h
            exact h
          simp only [mgrStep, DialogueManager.add_message, hg]
          rw [hst2]
          exact persist_preserves_terminal st session_id _ now hterm
            (fun _ => hterm s1 hfst.1)
  | updateContext rt conf ups =>
      rcases hg : DialogueManager.get_session st session_id now now with
        ⟨r, st2⟩
      have hsnd := (get_session_spec st session_id now now).2
      rw [hg] at hsnd
      cases r with
      | error e =>
          simp only [mgrStep, DialogueManager.update_context, hg]
          rcases hsnd with h | h
          · have h2 : st2 = st := h
            rw [h2]
            exact hterm
          · have h2 : st2 = eraseKey st session_id := h
            rw [h2]
            exact terminalAt_eraseKey st session_id
      | ok s1 =>
          have hfst := (get_session_spec st session_id now now).1 s1
            (by rw [hg])
          have hst2 : st2 = st := by
            have h := hfst.2
            rw [hg] at h
            exact h
          simp only [mgrStep, DialogueManager.update_context, hg]
          rw [hst2]
          exact persist_preserves_terminal st session_id _ now hterm
            (fun _ => hterm s1 hfst.1)
  | closeSession status =>
      rcases hg : DialogueManager.get_session st session_id now now with
        ⟨r, st2⟩
      have hsnd := (get_session_spec st session_id now now).2
      rw [hg] at hsnd
      cases r with
      | error e =>
          simp only [mgrStep, DialogueManager.close_session, hg]
          rcases hsnd with h | h
          · have h2 : st2 = st := h
            rw [h2]
            exact hterm
          · have h2 : st2 = eraseKey st session_id := h
            rw [h2]
            exact terminalAt_eraseKey st session_id
      | ok s1 =>
          have hfst := (get_session_spec st session_id now now).1 s1
            (by rw [hg])
          have hst2 : st2 = st := by
            have h := hfst.2
            rw [hg] at h
            exact h
          simp only [mgrStep, DialogueManager.close_session, hg]
          rw [hst2]
          exact persist_preserves_terminal st session_id _ now hterm
            (fun _ => hsafe)

theorem mgrRun_preserves_terminal (session_id : Nat)
    (ops : List (MgrOp × Time)) :
    ∀ st, (∀ p ∈ ops, p.1.preservesClosure session_id) →
      terminalAt st session_id →
      terminalAt (mgrRun session_id st ops) session_id := by
  induction ops with
  | nil => exact fun st _ hterm => hterm
  | cons p rest ih =>
      intro st hsafe hterm
      have hstep : terminalAt (mgrStep session_id st p) session_id :=
        mgrStep_preserves_terminal session_id st p.1 p.2
          (hsafe p (List.mem_cons_self p rest)) hterm
      exact ih (mgrStep session_id st p)
        (fun q hq => hsafe q (List.mem_cons_of_mem p hq)) hstep

/-- C8 counterexample: `close_session` with status argument `Active` on the
stored `Completed` session writes it back as `Active` — a Manager operation
resurrects a closed session, contradicting the claim that no sequence of
Manager operations can return a terminal session to `Active`. -/
theorem close_session_resurrects_counterexample :
    dictGet storeCompleted 1 = some sessionCompleted ∧
    sessionCompleted.status = .completed ∧
    (dictGet (DialogueManager.close_session storeCompleted 1 .active 5).2
        1).map DialogueSession.status = some .active := by
  refine ⟨rfl, rfl, rfl⟩

/-- C8 (amended): `addMessage`, `updateContext` and `updateSession` never
change a stored session's status on their own, and `closeSession` stores its
status argument unconditionally; hence a terminal session stays terminal
under every sequence of Manager operations in which `closeSession` receives
only terminal statuses and `updateSession` write-backs targeting the id
carry terminal snapshots.  Without that restriction the invariant fails:
`closeSession(id, Active)` resurrects the session (see the
counterexample). -/
theorem closed_session_stays_closed (session_id : Nat) (st : Store)
    (ops : List (MgrOp × Time))
    (hsafe : ∀ p ∈ ops, p.1.preservesClosure session_id)
    (hterm : terminalAt st session_id) :
    terminalAt (mgrRun session_id st ops) session_id :=
  mgrRun_preserves_terminal session_id ops st hsafe hterm

/-- Witness for C8: a close(Escalated)/addMessage/updateContext sequence on
the completed session leaves it terminal. -/
theorem closed_session_stays_closed_witness :
    terminalAt (mgrRun 1 storeCompleted opsSample) 1 :=
  closed_session_stays_closed 1 storeCompleted opsSample
    (by
      intro p hp
      simp only [opsSample, List.mem_cons, List.not_mem_nil, or_false]
        at hp
      rcases hp with rfl | rfl | rfl <;>
        simp [MgrOp.preservesClosure, DialogueStatus.isTerminal])
    (fun s hs => by
      have hse : s = sessionCompleted := by
        simpa [storeCompleted, dictGet] using hs.symm
      rw [hse]
      rfl)

end CallCenter
